import Mathlib

/-!
Shallow embedding of the `meta_plugin_api` crate (`src/lib.rs`): the
`PluginError` and `HelpMode` enums, the `Plugin` trait (as a structure of
its methods, with the trait's default for `get_help_output`), and the two
mock plugin implementations from the crate's test module.  Rust's
`anyhow::Result<()>` is embedded as `Except AnyhowError Unit`, where
`AnyhowError` distinguishes a plain message error (built by `anyhow!`)
from an error wrapping a structural `PluginError` value.
-/

/-- The `PluginError` enum from `src/lib.rs`: the two structural failure kinds. -/
inductive PluginError where
  | LoadError (detail : String)
  | CommandNotFound (detail : String)
deriving DecidableEq, Repr

/-- The `Display` impl derived by `thiserror`'s `#[error(...)]` attributes:
`"Failed to load plugin: {0}"` and `"Command not found: {0}"`. -/
def PluginError.display : PluginError → String
  | .LoadError detail => "Failed to load plugin: " ++ detail
  | .CommandNotFound detail => "Command not found: " ++ detail

/-- The `HelpMode` enum from `src/lib.rs`: how plugin help composes with host help. -/
inductive HelpMode where
  | Override
  | Prepend
  | None
deriving DecidableEq, Repr

/-- An `anyhow::Error` value as the crate can construct one: either a plain
message error made with `anyhow!("...")`, or an error wrapping a structural
`PluginError` value (via `anyhow`'s `From` conversion). -/
inductive AnyhowError where
  | msg (s : String)
  | ofPluginError (e : PluginError)
deriving DecidableEq, Repr

/-- The displayed message of an `anyhow::Error`. -/
def AnyhowError.display : AnyhowError → String
  | .msg s => s
  | .ofPluginError e => e.display

/-- Whether an `anyhow::Error` is (wraps) a `PluginError::CommandNotFound`. -/
def AnyhowError.isCommandNotFound : AnyhowError → Bool
  | .ofPluginError (.CommandNotFound _) => true
  | _ => false

/-- Whether an `anyhow::Error` is (wraps) one of the two structural
`PluginError` kinds at all. -/
def AnyhowError.isStructural : AnyhowError → Bool
  | .ofPluginError _ => true
  | .msg _ => false

/-- The body of the `Plugin` trait's provided default for `get_help_output`:
it returns `None` for every argument list. -/
def defaultGetHelpOutput : List String → Option (HelpMode × String) :=
  fun _args => Option.none

/-- The `Plugin` trait from `src/lib.rs`, embedded as a record of its
methods.  `get_help_output` carries the trait's default body. -/
structure Plugin where
  name : String
  commands : List String
  execute : String → List String → Except AnyhowError Unit
  get_help_output : List String → Option (HelpMode × String) := defaultGetHelpOutput

/-- The `MockSuccessPlugin` implementation from the crate's test module: succeeds exactly on
`"success_cmd"`, otherwise fails with `anyhow!("Command not found")`. -/
def MockSuccessPlugin : Plugin where
  name := "mock_success"
  commands := ["success_cmd"]
  execute := fun command _args =>
    if command = "success_cmd" then Except.ok ()
    else Except.error (AnyhowError.msg "Command not found")

/-- The `MockFailPlugin` implementation from the crate's test module: fails on every command
with `anyhow!("Simulated plugin failure")`. -/
def MockFailPlugin : Plugin where
  name := "mock_fail"
  commands := ["fail_cmd"]
  execute := fun _command _args =>
    Except.error (AnyhowError.msg "Simulated plugin failure")

/-- The plugin implementations defined in the crate. -/
def cratePlugins : List Plugin := [MockSuccessPlugin, MockFailPlugin]

/-- C1: for every detail string, `LoadError d` displays as
`"Failed to load plugin: "` followed by `d`, and `CommandNotFound d`
displays as `"Command not found: "` followed by `d`. -/
theorem pluginError_display_templates (d : String) :
    (PluginError.LoadError d).display = "Failed to load plugin: " ++ d ∧
    (PluginError.CommandNotFound d).display = "Command not found: " ++ d :=
  ⟨rfl, rfl⟩

/-- C2 counterexample: `MockSuccessPlugin` asked to execute the
unrecognized command `"unknown_cmd"` fails with the generic anyhow error
`anyhow!("Command not found")`, which is not a
`PluginError::CommandNotFound` value. -/
theorem mockSuccess_unknown_cmd_not_structural :
    MockSuccessPlugin.execute "unknown_cmd" [] =
      Except.error (AnyhowError.msg "Command not found") ∧
    AnyhowError.isCommandNotFound (AnyhowError.msg "Command not found") = false :=
  ⟨rfl, rfl⟩

/-- Lemma: the two mock plugins are distinct values (their names differ). -/
theorem mockPlugins_distinct : MockSuccessPlugin ≠ MockFailPlugin := by
  intro h
  have hn := congrArg Plugin.name h
  simp [MockSuccessPlugin, MockFailPlugin] at hn

/-- C2 amended: for every plugin implementation in the crate and every
command `C` outside its `commands()` list, `execute C args` fails, and the
failure is a generic anyhow message error — message `"Command not found"`
for `MockSuccessPlugin` and `"Simulated plugin failure"` for
`MockFailPlugin` — not a `PluginError::CommandNotFound` (nor any other
structural `PluginError`) value. -/
theorem execute_unknown_command_fails_generic (P : Plugin)
    (hP : P ∈ cratePlugins) (C : String) (args : List String)
    (hC : C ∉ P.commands) :
    ∃ s, P.execute C args = Except.error (AnyhowError.msg s) ∧
      (AnyhowError.msg s).isStructural = false ∧
      (AnyhowError.msg s).isCommandNotFound = false ∧
      (P = MockSuccessPlugin → s = "Command not found") ∧
      (P = MockFailPlugin → s = "Simulated plugin failure") := by
  simp only [cratePlugins, List.mem_cons, List.not_mem_nil, or_false] at hP
  rcases hP with h | h <;> subst h
  · refine ⟨"Command not found", ?_, rfl, rfl, fun _ => rfl,
      fun h => absurd h mockPlugins_distinct⟩
    have hne : C ≠ "success_cmd" := by
      intro h
      exact hC (by simp [MockSuccessPlugin, h])
    simp [MockSuccessPlugin, hne]
  · exact ⟨"Simulated plugin failure", rfl, rfl, rfl,
      fun h => absurd h.symm mockPlugins_distinct, fun _ => rfl⟩

/-- C2 amended, witness at `MockSuccessPlugin` and command
`"unknown_cmd"`. -/
theorem execute_unknown_command_fails_generic_witness :
    ∃ s, MockSuccessPlugin.execute "unknown_cmd" [] =
        Except.error (AnyhowError.msg s) ∧
      (AnyhowError.msg s).isStructural = false ∧
      (AnyhowError.msg s).isCommandNotFound = false ∧
      (MockSuccessPlugin = MockSuccessPlugin → s = "Command not found") ∧
      (MockSuccessPlugin = MockFailPlugin → s = "Simulated plugin failure") :=
  execute_unknown_command_fails_generic MockSuccessPlugin
    (by simp [cratePlugins]) "unknown_cmd" [] (by decide)

/-- C3: for every plugin implementation in the crate and every command `C`
in its `commands()` list, `execute C args` never fails with a
`PluginError::CommandNotFound` error (it may still fail for domain
reasons, as `MockFailPlugin` does). -/
theorem execute_known_command_not_commandNotFound (P : Plugin)
    (hP : P ∈ cratePlugins) (C : String) (hC : C ∈ P.commands)
    (args : List String) :
    ∀ e, P.execute C args = Except.error e → e.isCommandNotFound = false := by
  simp only [cratePlugins, List.mem_cons, List.not_mem_nil, or_false] at hP
  rcases hP with h | h <;> subst h
  · have hc : C = "success_cmd" := by
      simpa [MockSuccessPlugin] using hC
    intro e he
    simp [MockSuccessPlugin, hc] at he
  · intro e he
    simp only [MockFailPlugin] at he
    cases he
    rfl

/-- C3, witness at `MockFailPlugin` and its advertised command
`"fail_cmd"`. -/
theorem execute_known_command_not_commandNotFound_witness :
    AnyhowError.isCommandNotFound (AnyhowError.msg "Simulated plugin failure") = false :=
  execute_known_command_not_commandNotFound MockFailPlugin
    (by simp [cratePlugins]) "fail_cmd" (by decide) []
    (AnyhowError.msg "Simulated plugin failure") rfl

/-- C4: the trait's default implementation of `get_help_output` returns
`None` for every argument list, and both crate plugins, which do not
override it, inherit that behaviour.  It is embedded as a pure function,
as the Rust body (the literal `None`) has no effects. -/
theorem defaultGetHelpOutput_none (args : List String) :
    defaultGetHelpOutput args = Option.none ∧
    MockSuccessPlugin.get_help_output args = Option.none ∧
    MockFailPlugin.get_help_output args = Option.none :=
  ⟨rfl, rfl, rfl⟩

/-- C5: `HelpMode` consists of exactly the three mutually distinct
variants `Override`, `Prepend` and `None`; every value equals exactly one
of them. -/
theorem helpMode_exactly_three (m : HelpMode) :
    (m = HelpMode.Override ∨ m = HelpMode.Prepend ∨ m = HelpMode.None) ∧
    HelpMode.Override ≠ HelpMode.Prepend ∧
    HelpMode.Override ≠ HelpMode.None ∧
    HelpMode.Prepend ≠ HelpMode.None := by
  cases m <;> simp

/-- C7: every failure produced by a crate plugin's `execute` travels
through the generic anyhow channel and is never one of the two structural
`PluginError` kinds; in particular `MockFailPlugin`'s failure for its
advertised command `"fail_cmd"` carries the message
`"Simulated plugin failure"` and is not a `PluginError` value. -/
theorem execute_errors_never_structural (P : Plugin)
    (hP : P ∈ cratePlugins) (C : String) (args : List String)
    (e : AnyhowError) (he : P.execute C args = Except.error e) :
    e.isStructural = false ∧
    MockFailPlugin.execute "fail_cmd" args =
      Except.error (AnyhowError.msg "Simulated plugin failure") ∧
    AnyhowError.display (AnyhowError.msg "Simulated plugin failure") =
      "Simulated plugin failure" := by
  refine ⟨?_, rfl, rfl⟩
  simp only [cratePlugins, List.mem_cons, List.not_mem_nil, or_false] at hP
  rcases hP with h | h <;> subst h
  · by_cases hc : C = "success_cmd"
    · simp [MockSuccessPlugin, hc] at he
    · simp only [MockSuccessPlugin, if_neg hc] at he
      cases he
      rfl
  · simp only [MockFailPlugin] at he
    cases he
    rfl

/-- C7, witness at `MockFailPlugin`, command `"fail_cmd"`, empty
arguments. -/
theorem execute_errors_never_structural_witness :
    AnyhowError.isStructural (AnyhowError.msg "Simulated plugin failure") = false ∧
    MockFailPlugin.execute "fail_cmd" [] =
      Except.error (AnyhowError.msg "Simulated plugin failure") ∧
    AnyhowError.display (AnyhowError.msg "Simulated plugin failure") =
      "Simulated plugin failure" :=
  execute_errors_never_structural MockFailPlugin (by simp [cratePlugins])
    "fail_cmd" [] (AnyhowError.msg "Simulated plugin failure") rfl

/-- C8: both crate plugins' `name()` is a fixed non-empty string —
`"mock_success"` for `MockSuccessPlugin` and `"mock_fail"` for
`MockFailPlugin`; as a constant field of the embedding it is the same on
every call and cannot fail. -/
theorem plugin_names_nonempty_stable :
    MockSuccessPlugin.name = "mock_success" ∧
    MockFailPlugin.name = "mock_fail" ∧
    MockSuccessPlugin.name ≠ "" ∧
    MockFailPlugin.name ≠ "" :=
  ⟨rfl, rfl, by decide, by decide⟩

/-- C9: `MockSuccessPlugin.execute C args` returns `Ok` exactly when `C`
equals `"success_cmd"`, which is exactly when `C` is in
`MockSuccessPlugin.commands`; the result does not depend on `args`. -/
theorem mockSuccess_execute_ok_iff (C : String) (args args2 : List String) :
    (MockSuccessPlugin.execute C args = Except.ok () ↔ C = "success_cmd") ∧
    (C = "success_cmd" ↔ C ∈ MockSuccessPlugin.commands) ∧
    MockSuccessPlugin.execute C args = MockSuccessPlugin.execute C args2 := by
  refine ⟨?_, by simp [MockSuccessPlugin], rfl⟩
  by_cases hc : C = "success_cmd" <;> simp [MockSuccessPlugin, hc]

/-- C10: `MockFailPlugin.execute` fails for every command string and every
argument list — including its advertised command `"fail_cmd"` — and the
error's displayed message contains `"Simulated plugin failure"`. -/
theorem mockFail_execute_always_fails (C : String) (args : List String) :
    ∃ e, MockFailPlugin.execute C args = Except.error e ∧
      List.IsInfix ("Simulated plugin failure").data (AnyhowError.display e).data :=
  ⟨AnyhowError.msg "Simulated plugin failure", rfl, List.infix_refl _⟩
